import Mathlib

/-!
Verification of the HermitSystem window/input/renderer abstraction layer.

This file gives a shallow embedding of the state-machine parts of the
repository — the Win32Input double-buffered input system, the DirectX11 and
DirectX12 renderer backends, and the RendererFactory selection logic — and
proves or refutes the frozen specification claims about them.

Modelling conventions:
* Key and mouse-button state arrays are modelled as functions from Nat
  ordinals to Bool, with the same explicit index guards as the source
  (MAX_KEYS = 512, MAX_MOUSE_BUTTONS = 3).
* Mouse coordinates and deltas are C ints, modelled as Int (their values in
  any real run are far from the 32-bit boundaries, so wraparound is not
  modelled).
* uint32 statistics counters are modelled as Nat with explicit reduction
  modulo 2 to the 32 where the source performs an increment; the uint64
  frame and fence counters are modelled as Nat, their increments being far
  below the 64-bit boundary in any execution (see individual comments).
* The frameTime statistic is a float in the source (microseconds divided by
  1000.0); it is modelled as the elapsed microsecond count, a Nat, since the
  claims only concern when it is recomputed, not its numeric value.
* Calls into the Win32 and Direct3D APIs are modelled by Boolean environment
  parameters recording whether each fallible call succeeds; API calls that
  cannot fail and touch no modelled field are omitted.
* Callback invocation is modelled by returning the list of invocations an
  event handler performs (the source forwards each to the registered
  std function when one is set).
-/

namespace HermitSystem

/-! ### Win32Input data model (src/System/Win32Input.h, implementation in the
Win32Input translation unit) -/

/-- MAX_KEYS from Win32Input.h. -/
def MAX_KEYS : Nat := 512

/-- MAX_MOUSE_BUTTONS from Win32Input.h. -/
def MAX_MOUSE_BUTTONS : Nat := 3

/-- Mutable state of Win32Input: the double-buffered key and mouse-button
arrays, mouse position, previous position, delta, wheel delta, and the
capture/cursor flags. The callbacks and the key map are not state here: the
key map is a constant table (embedded below as virtualKeyToKey) and callback
invocations are returned as events. -/
structure InputState where
  hwndSet : Bool
  currentKeyState : Nat → Bool
  previousKeyState : Nat → Bool
  currentMouseState : Nat → Bool
  previousMouseState : Nat → Bool
  mouseX : Int
  mouseY : Int
  previousMouseX : Int
  previousMouseY : Int
  mouseDeltaX : Int
  mouseDeltaY : Int
  wheelDelta : Int
  mouseCaptured : Bool
  cursorVisible : Bool

/-- State established by the Win32Input constructor: all key and button
states false, positions and deltas zero, cursor visible. -/
def initialInputState : InputState where
  hwndSet := false
  currentKeyState := fun _ => false
  previousKeyState := fun _ => false
  currentMouseState := fun _ => false
  previousMouseState := fun _ => false
  mouseX := 0
  mouseY := 0
  previousMouseX := 0
  previousMouseY := 0
  mouseDeltaX := 0
  mouseDeltaY := 0
  wheelDelta := 0
  mouseCaptured := false
  cursorVisible := true

/-- The static key map built by InitializeKeyMap, composed with the lookup in
VirtualKeyToKey. Every mapped Windows virtual-key code is mapped to the Key
enumerator with the same ordinal (the Key enum values were chosen to equal
the VK codes); unmapped codes resolve to Key Unknown, ordinal 0.
Ranges: letters 65..90, digits 48..57, function keys 112..123, then the
special, arrow and modifier keys listed in InitializeKeyMap. -/
def virtualKeyToKey (vk : Nat) : Nat :=
  if 65 ≤ vk ∧ vk ≤ 90 then vk
  else if 48 ≤ vk ∧ vk ≤ 57 then vk
  else if 112 ≤ vk ∧ vk ≤ 123 then vk
  else if vk = 32 ∨ vk = 13 ∨ vk = 27 ∨ vk = 9 ∨ vk = 8 ∨ vk = 46 ∨ vk = 45
       ∨ vk = 36 ∨ vk = 35 ∨ vk = 33 ∨ vk = 34 then vk
  else if vk = 37 ∨ vk = 38 ∨ vk = 39 ∨ vk = 40 then vk
  else if vk = 16 ∨ vk = 17 ∨ vk = 18 then vk
  else 0

/-- Ordinals of every enumerator of the Key enumeration in IInput.h:
Unknown, A..Z, Num0..Num9, F1..F12, the special keys, arrows, modifiers,
and the three mouse keys 256..258. -/
def keyEnumOrdinals : List Nat :=
  0 :: ((List.range 26).map (fun i => 65 + i)
    ++ (List.range 10).map (fun i => 48 + i)
    ++ (List.range 12).map (fun i => 112 + i)
    ++ [32, 13, 27, 9, 8, 46, 45, 36, 35, 33, 34,
        37, 38, 39, 40, 16, 17, 18, 256, 257, 258])

/-- Win32Input IsKeyDown: bounds-guarded read of the current key array. -/
def isKeyDown (s : InputState) (key : Nat) : Bool :=
  if key < MAX_KEYS then s.currentKeyState key else false

/-- Win32Input WasKeyPressed: current and not previous, guarded. -/
def wasKeyPressed (s : InputState) (key : Nat) : Bool :=
  if MAX_KEYS ≤ key then false
  else s.currentKeyState key && !s.previousKeyState key

/-- Win32Input WasKeyReleased: not current and previous, guarded. -/
def wasKeyReleased (s : InputState) (key : Nat) : Bool :=
  if MAX_KEYS ≤ key then false
  else !s.currentKeyState key && s.previousKeyState key

/-- Win32Input IsMouseButtonDown, guarded by MAX_MOUSE_BUTTONS. -/
def isMouseButtonDown (s : InputState) (button : Nat) : Bool :=
  if button < MAX_MOUSE_BUTTONS then s.currentMouseState button else false

/-- Win32Input UpdateKeyState: writes the current key array only when the
key is not Unknown and its ordinal is below MAX_KEYS. -/
def updateKeyState (key : Nat) (pressed : Bool) (s : InputState) : InputState :=
  if key ≠ 0 then
    if key < MAX_KEYS then
      { s with currentKeyState := fun i => if i = key then pressed else s.currentKeyState i }
    else s
  else s

/-- Win32Input UpdateMouseButtonState, guarded by MAX_MOUSE_BUTTONS. -/
def updateMouseButtonState (button : Nat) (pressed : Bool) (s : InputState) : InputState :=
  if button < MAX_MOUSE_BUTTONS then
    { s with currentMouseState := fun i => if i = button then pressed else s.currentMouseState i }
  else s

/-- Win32Input UpdateMousePosition: overwrites the stored mouse position. -/
def updateMousePosition (x y : Int) (s : InputState) : InputState :=
  { s with mouseX := x, mouseY := y }

/-- A callback invocation performed by an event handler. Key ordinals and
button indices are the Nat ordinals of the corresponding enumerators. -/
inductive CallbackEvent where
  | key (ordinal : Nat) (pressed : Bool)
  | mouseButton (button : Nat) (pressed : Bool) (x y : Int)
  | mouseMove (x y : Int)
  | scroll (delta : Int)
deriving DecidableEq

/-- Win32Input HandleKeyDown: maps the virtual key, ignores Unknown, sets the
current state, and invokes the key callback only when the key was up before
the event. -/
def handleKeyDown (vk : Nat) (s : InputState) : InputState × List CallbackEvent :=
  let key := virtualKeyToKey vk
  if key ≠ 0 then
    let wasUp := !isKeyDown s key
    let s1 := updateKeyState key true s
    (s1, if wasUp then [CallbackEvent.key key true] else [])
  else (s, [])

/-- Win32Input HandleKeyUp: maps the virtual key, ignores Unknown, clears the
current state, and invokes the key callback unconditionally (no edge check,
unlike HandleKeyDown). -/
def handleKeyUp (vk : Nat) (s : InputState) : InputState × List CallbackEvent :=
  let key := virtualKeyToKey vk
  if key ≠ 0 then
    (updateKeyState key false s, [CallbackEvent.key key false])
  else (s, [])

/-- Win32Input HandleMouseButtonDown for the button decoded from the message
type: sets the button state, stores the event position, and invokes the
mouse-button callback only when the button was up before the event. -/
def handleMouseButtonDown (button : Nat) (x y : Int) (s : InputState) :
    InputState × List CallbackEvent :=
  let wasUp := !isMouseButtonDown s button
  let s1 := updateMouseButtonState button true s
  let s2 := updateMousePosition x y s1
  (s2, if wasUp then [CallbackEvent.mouseButton button true x y] else [])

/-- Win32Input HandleMouseButtonUp: clears the button state, stores the event
position, and invokes the mouse-button callback unconditionally. -/
def handleMouseButtonUp (button : Nat) (x y : Int) (s : InputState) :
    InputState × List CallbackEvent :=
  let s1 := updateMouseButtonState button false s
  let s2 := updateMousePosition x y s1
  (s2, [CallbackEvent.mouseButton button false x y])

/-- Win32Input HandleMouseMove: stores the position and invokes the
mouse-move callback on every event. -/
def handleMouseMove (x y : Int) (s : InputState) : InputState × List CallbackEvent :=
  (updateMousePosition x y s, [CallbackEvent.mouseMove x y])

/-- Win32Input HandleMouseWheel: normalizes the raw delta by WHEEL_DELTA
(120) with C truncating division, stores it, and invokes the scroll callback
on every event. The raw argument is the signed short extracted by
GET_WHEEL_DELTA_WPARAM. -/
def handleMouseWheel (raw : Int) (s : InputState) : InputState × List CallbackEvent :=
  let d := Int.tdiv raw 120
  ({ s with wheelDelta := d }, [CallbackEvent.scroll d])

/-- Raw window messages forwarded to Win32Input ProcessMessage by
Win32Window WindowProc. The button index for the button messages is the
MouseButton ordinal the handler decodes from the message type
(Left 0, Right 1, Middle 2). -/
inductive Win32Msg where
  | keyDown (vk : Nat)
  | keyUp (vk : Nat)
  | sysKeyDown (vk : Nat)
  | sysKeyUp (vk : Nat)
  | charMsg (c : Nat)
  | buttonDown (button : Nat) (x y : Int)
  | buttonUp (button : Nat) (x y : Int)
  | mouseMove (x y : Int)
  | mouseWheel (raw : Int)
deriving DecidableEq

/-- Win32Input ProcessMessage: dispatch to the handlers. WM_KEYDOWN and
WM_SYSKEYDOWN share HandleKeyDown, likewise for key up; WM_CHAR is handled
by HandleChar, which does nothing. -/
def processMessage (m : Win32Msg) (s : InputState) : InputState × List CallbackEvent :=
  match m with
  | Win32Msg.keyDown vk => handleKeyDown vk s
  | Win32Msg.keyUp vk => handleKeyUp vk s
  | Win32Msg.sysKeyDown vk => handleKeyDown vk s
  | Win32Msg.sysKeyUp vk => handleKeyUp vk s
  | Win32Msg.charMsg _ => (s, [])
  | Win32Msg.buttonDown b x y => handleMouseButtonDown b x y s
  | Win32Msg.buttonUp b x y => handleMouseButtonUp b x y s
  | Win32Msg.mouseMove x y => handleMouseMove x y s
  | Win32Msg.mouseWheel raw => handleMouseWheel raw s

/-- Message pump loop of Win32Window Update: dispatch each queued message in
order, accumulating the callback invocations. -/
def pumpMessages : List Win32Msg → InputState → InputState × List CallbackEvent
  | [], s => (s, [])
  | m :: rest, s =>
    let r := processMessage m s
    let r2 := pumpMessages rest r.1
    (r2.1, r.2 ++ r2.2)

/-- Win32Input Update: copy current key and button state into previous,
resample the absolute cursor position (the sample is the cursor argument,
the value GetCursorPosition returns at this call), recompute the delta
against the stored position, and reset the wheel delta. -/
def inputUpdate (cursor : Int × Int) (s : InputState) : InputState :=
  { s with
    previousKeyState := s.currentKeyState
    previousMouseState := s.currentMouseState
    previousMouseX := s.mouseX
    previousMouseY := s.mouseY
    mouseX := cursor.1
    mouseY := cursor.2
    mouseDeltaX := cursor.1 - s.mouseX
    mouseDeltaY := cursor.2 - s.mouseY
    wheelDelta := 0 }

/-- Win32Input member Initialize: records the handle, fails on a null
handle, and otherwise establishes the current cursor sample as both current
and previous position with zero delta. The handleOk flag is whether the
passed native handle is non-null; cursor is the GetCursorPosition sample. -/
def inputInit (handleOk : Bool) (cursor : Int × Int) (s : InputState) :
    Bool × InputState :=
  let s0 := { s with hwndSet := handleOk }
  if !handleOk then (false, s0)
  else
    (true, { s0 with
      mouseX := cursor.1
      mouseY := cursor.2
      previousMouseX := cursor.1
      previousMouseY := cursor.2
      mouseDeltaX := 0
      mouseDeltaY := 0 })

/-- Win32Window Update for an initialized window: pump and dispatch all
queued messages (which mutate the input state and fire callbacks), then call
the input system Update with the current cursor sample. -/
def windowUpdate (msgs : List Win32Msg) (cursor : Int × Int) (s : InputState) :
    InputState × List CallbackEvent :=
  let r := pumpMessages msgs s
  (inputUpdate cursor r.1, r.2)

/-! ### Renderer backends (src/Renderer/DirectX11Renderer and
src/Renderer/DirectX12Renderer). Fields the claims never observe (COM
object pointers, viewport rectangles, MSAA flags, version strings) are not
modelled; every modelled field follows the member of the same name. -/

/-- Modulus of a uint32 counter. -/
def UINT32_MOD : Nat := 2 ^ 32

/-- Modulus of a uint64 counter. -/
def UINT64_MOD : Nat := 2 ^ 64

/-- RenderStats from IRenderer.h. frameTime is kept as the elapsed
microsecond count the DirectX11 backend computes before its division by
1000.0 into float milliseconds. -/
structure RenderStats where
  frameCount : Nat
  frameTime : Nat
  drawCalls : Nat
  vertices : Nat
  triangles : Nat
deriving DecidableEq

/-- Zero-initialized RenderStats, the in-class initializer of m_stats. -/
def initialStats : RenderStats where
  frameCount := 0
  frameTime := 0
  drawCalls := 0
  vertices := 0
  triangles := 0

/-- Modelled state of DirectX11Renderer. -/
structure DX11State where
  initialized : Bool
  windowHandleSet : Bool
  backBufferWidth : Nat
  backBufferHeight : Nat
  frameStartTime : Nat
  stats : RenderStats
deriving DecidableEq

/-- State set up by the DirectX11Renderer constructor. -/
def dx11InitialState : DX11State where
  initialized := false
  windowHandleSet := false
  backBufferWidth := 0
  backBufferHeight := 0
  frameStartTime := 0
  stats := initialStats

/-- Success flags for the fallible Direct3D 11 calls inside the member
Initialize of DirectX11Renderer. -/
structure DX11InitEnv where
  deviceOk : Bool
  swapChainOk : Bool
  rtvOk : Bool
  depthStencilOk : Bool
deriving DecidableEq

/-- DirectX11Renderer member Initialize: an already-initialized backend
returns true unchanged; a null handle or zero dimension returns false
unchanged; otherwise handle and back-buffer size are stored before the
Direct3D device, swap chain, render-target view and depth-stencil creation,
each of which returns false on failure leaving those stores in place; on
success the backend becomes initialized. -/
def dx11Init (handleOk : Bool) (w h : Nat) (env : DX11InitEnv) (s : DX11State) :
    Bool × DX11State :=
  if s.initialized then (true, s)
  else if !handleOk then (false, s)
  else if w = 0 ∨ h = 0 then (false, s)
  else
    let s1 := { s with windowHandleSet := true, backBufferWidth := w, backBufferHeight := h }
    if !env.deviceOk then (false, s1)
    else if !env.swapChainOk then (false, s1)
    else if !env.rtvOk then (false, s1)
    else if !env.depthStencilOk then (false, s1)
    else (true, { s1 with initialized := true })

/-- DirectX11Renderer Shutdown: no-op when not initialized; otherwise flush,
release everything, clear the initialized flag and the stored handle. -/
def dx11Shutdown (s : DX11State) : DX11State :=
  if !s.initialized then s
  else { s with initialized := false, windowHandleSet := false }

/-- DirectX11Renderer BeginFrame: no-op when not initialized; otherwise
record the frame start timestamp (the now argument, microseconds) and clear
the three per-frame draw counters. -/
def dx11BeginFrame (now : Nat) (s : DX11State) : DX11State :=
  if !s.initialized then s
  else { s with
    frameStartTime := now
    stats := { s.stats with drawCalls := 0, vertices := 0, triangles := 0 } }

/-- DirectX11Renderer EndFrame: no-op when not initialized; otherwise
UpdateStats recomputes frameTime from the elapsed time since the BeginFrame
timestamp. -/
def dx11EndFrame (now : Nat) (s : DX11State) : DX11State :=
  if !s.initialized then s
  else { s with stats := { s.stats with frameTime := now - s.frameStartTime } }

/-- DirectX11Renderer Present: no-op when not initialized; otherwise present
(a failure is only logged, the presentOk flag has no modelled effect) and
increment frameCount, a uint64. -/
def dx11Present (presentOk : Bool) (s : DX11State) : DX11State :=
  if !s.initialized then s
  else { s with stats := { s.stats with frameCount := (s.stats.frameCount + 1) % UINT64_MOD } }

/-- DirectX11Renderer DrawIndexed (dummy implementation): increments
drawCalls, adds indexCount / 3 to triangles and indexCount to vertices,
with no initialization guard. The start and base locations are unused by
the source body. -/
def dx11DrawIndexed (indexCount startIndexLocation : Nat) (baseVertexLocation : Int)
    (s : DX11State) : DX11State :=
  { s with stats := { s.stats with
    drawCalls := (s.stats.drawCalls + 1) % UINT32_MOD
    triangles := (s.stats.triangles + indexCount / 3) % UINT32_MOD
    vertices := (s.stats.vertices + indexCount) % UINT32_MOD } }

/-- DirectX11Renderer SetVertexBuffer (dummy): touches no modelled state. -/
def dx11SetVertexBuffer (s : DX11State) : DX11State := s

/-- DirectX11Renderer SetIndexBuffer (dummy): touches no modelled state. -/
def dx11SetIndexBuffer (s : DX11State) : DX11State := s

/-- DirectX11Renderer SetPrimitiveTopology (dummy): touches no modelled
state. -/
def dx11SetPrimitiveTopology (s : DX11State) : DX11State := s

/-- DirectX11Renderer SetShader (dummy): touches no modelled state. -/
def dx11SetShader (s : DX11State) : DX11State := s

/-- SWAP_CHAIN_BUFFER_COUNT from DirectX12Renderer.h. -/
def SWAP_CHAIN_BUFFER_COUNT : Nat := 2

/-- Modelled state of DirectX12Renderer. fenceEvent records whether the
Win32 event handle m_fenceEvent is currently non-null. The fence counter
m_currentFence is a UINT64 advanced by at most one per operation; its
64-bit wraparound is unreachable and not modelled. -/
structure DX12State where
  initialized : Bool
  hwndSet : Bool
  currBackBuffer : Nat
  currentFence : Nat
  fenceEvent : Bool
  backBufferWidth : Nat
  backBufferHeight : Nat
  stats : RenderStats
deriving DecidableEq

/-- State set up by the DirectX12Renderer in-class initializers: fence 0,
back buffer index 0, no fence event, default 800 by 600 size. -/
def dx12InitialState : DX12State where
  initialized := false
  hwndSet := false
  currBackBuffer := 0
  currentFence := 0
  fenceEvent := false
  backBufferWidth := 800
  backBufferHeight := 600
  stats := initialStats

/-- DirectX12Renderer FlushCommandQueue: advance the fence value, signal it
on the queue, and block until the GPU reaches it; the wait uses a local
event handle. The fence increment happens before any fallible call, so the
modelled effect is unconditional. -/
def dx12FlushCommandQueue (s : DX12State) : DX12State :=
  { s with currentFence := s.currentFence + 1 }

/-- DirectX12Renderer WaitForGPU: no-op when not initialized; otherwise
signal the current fence value and advance it, blocking until completion. -/
def dx12WaitForGPU (s : DX12State) : DX12State :=
  if !s.initialized then s
  else { s with currentFence := s.currentFence + 1 }

/-- Success flags for the fallible Direct3D 12 calls inside the member
Initialize of DirectX12Renderer. The creations inside CreateCommandObjects
before CreateEventEx (queue, allocator, command list, fence) are collapsed
into cmdObjectsOk because their failures leave every modelled field
untouched; fenceEventOk is the CreateEventEx call that produces
m_fenceEvent. -/
structure DX12InitEnv where
  deviceOk : Bool
  cmdObjectsOk : Bool
  fenceEventOk : Bool
  swapChainOk : Bool
  heapsOk : Bool
  rtvOk : Bool
  depthStencilOk : Bool
deriving DecidableEq

/-- DirectX12Renderer member Initialize: an already-initialized backend
returns false unchanged; otherwise the handle and back-buffer size are
stored first, then device, command objects (whose success leaves the fence
event handle created), swap chain, descriptor heaps, render-target views
and the depth-stencil buffer are created in order, returning false at the
first failure with all earlier stores in place. CreateDepthStencilBuffer
ends with a FlushCommandQueue, so a fully successful path also advances the
fence once. -/
def dx12Init (handleOk : Bool) (w h : Nat) (env : DX12InitEnv) (s : DX12State) :
    Bool × DX12State :=
  if s.initialized then (false, s)
  else
    let s1 := { s with hwndSet := handleOk, backBufferWidth := w, backBufferHeight := h }
    if !env.deviceOk then (false, s1)
    else if !env.cmdObjectsOk then (false, s1)
    else
      let s2 := { s1 with fenceEvent := env.fenceEventOk }
      if !env.fenceEventOk then (false, s2)
      else if !env.swapChainOk then (false, s2)
      else if !env.heapsOk then (false, s2)
      else if !env.rtvOk then (false, s2)
      else if !env.depthStencilOk then (false, s2)
      else (true, { dx12FlushCommandQueue s2 with initialized := true })

/-- DirectX12Renderer Shutdown: no-op when not initialized; otherwise wait
for the GPU, close the fence event handle when one is held, and clear the
initialized flag. -/
def dx12Shutdown (s : DX12State) : DX12State :=
  if !s.initialized then s
  else
    let s1 := dx12WaitForGPU s
    let s2 := if s1.fenceEvent then { s1 with fenceEvent := false } else s1
    { s2 with initialized := false }

/-- DirectX12Renderer BeginFrame: no-op when not initialized; otherwise it
resets the command list and records a resource barrier and viewport, none
of which touches a modelled field — in particular the statistics are left
untouched. -/
def dx12BeginFrame (s : DX12State) : DX12State :=
  if !s.initialized then s else s

/-- DirectX12Renderer EndFrame: no-op when not initialized; otherwise it
records the closing barrier, executes the command list, and increments
frameCount. -/
def dx12EndFrame (s : DX12State) : DX12State :=
  if !s.initialized then s
  else { s with stats := { s.stats with frameCount := (s.stats.frameCount + 1) % UINT64_MOD } }

/-- DirectX12Renderer Present: no-op when not initialized; a failed present
returns early; otherwise the back-buffer index advances modulo
SWAP_CHAIN_BUFFER_COUNT and FlushCommandQueue waits for the frame. -/
def dx12Present (presentOk : Bool) (s : DX12State) : DX12State :=
  if !s.initialized then s
  else if !presentOk then s
  else dx12FlushCommandQueue
    { s with currBackBuffer := (s.currBackBuffer + 1) % SWAP_CHAIN_BUFFER_COUNT }

/-- DirectX12Renderer OnResize: no-op when not initialized or when the
dimensions are unchanged; otherwise wait for the GPU, store the new size,
release and resize the swap-chain buffers (returning early on failure),
reset the back-buffer index to 0 and recreate the views; a successful
CreateDepthStencilBuffer ends with another FlushCommandQueue. -/
def dx12OnResize (w h : Nat) (resizeOk depthStencilOk : Bool) (s : DX12State) : DX12State :=
  if !s.initialized then s
  else if w = s.backBufferWidth ∧ h = s.backBufferHeight then s
  else
    let s1 := dx12WaitForGPU s
    let s2 := { s1 with backBufferWidth := w, backBufferHeight := h }
    if !resizeOk then s2
    else
      let s3 := { s2 with currBackBuffer := 0 }
      if depthStencilOk then dx12FlushCommandQueue s3 else s3

/-- DirectX12Renderer DrawIndexed (dummy implementation): increments
drawCalls, adds indexCount / 3 to triangles and indexCount to vertices,
with no initialization guard. The start and base locations are unused by
the source body. -/
def dx12DrawIndexed (indexCount startIndexLocation : Nat) (baseVertexLocation : Int)
    (s : DX12State) : DX12State :=
  { s with stats := { s.stats with
    drawCalls := (s.stats.drawCalls + 1) % UINT32_MOD
    triangles := (s.stats.triangles + indexCount / 3) % UINT32_MOD
    vertices := (s.stats.vertices + indexCount) % UINT32_MOD } }

/-- One operation of the DirectX12 backend, as a step relation for
reachability reasoning over the modelled state (claim C8). -/
inductive DX12Step : DX12State → DX12State → Prop where
  | stepInit (handleOk : Bool) (w h : Nat) (env : DX12InitEnv) (s : DX12State) :
      DX12Step s (dx12Init handleOk w h env s).2
  | stepBeginFrame (s : DX12State) : DX12Step s (dx12BeginFrame s)
  | stepEndFrame (s : DX12State) : DX12Step s (dx12EndFrame s)
  | stepPresent (presentOk : Bool) (s : DX12State) : DX12Step s (dx12Present presentOk s)
  | stepOnResize (w h : Nat) (resizeOk depthStencilOk : Bool) (s : DX12State) :
      DX12Step s (dx12OnResize w h resizeOk depthStencilOk s)
  | stepWaitForGPU (s : DX12State) : DX12Step s (dx12WaitForGPU s)
  | stepShutdown (s : DX12State) : DX12Step s (dx12Shutdown s)

/-- States of the DirectX12 backend reachable from construction by any
sequence of the operations of DX12Step. -/
inductive DX12Reachable : DX12State → Prop where
  | start : DX12Reachable dx12InitialState
  | step {s t : DX12State} : DX12Reachable s → DX12Step s t → DX12Reachable t

/-! ### RendererFactory (src/Renderer/RendererFactory.h and its translation
unit). The factory result is modelled as the API of the backend whose
construction succeeded, if any; the environment records the platform macros
and the outcomes of the runtime probes and constructor calls. -/

/-- RendererAPI enumeration from RendererFactory.h. -/
inductive RendererAPI where
  | auto
  | directX11
  | directX12
  | vulkan
  | openGL
  | metal
deriving DecidableEq

/-- Platform macros and runtime outcomes the factory depends on:
the three platform-detection macros, the D3D12CreateDevice probe inside
IsDirectX12Available, and whether each concrete constructor call throws. -/
structure PlatformEnv where
  isWindows : Bool
  isLinux : Bool
  isMacOS : Bool
  dx12DeviceProbeOk : Bool
  dx11CtorOk : Bool
  dx12CtorOk : Bool
deriving DecidableEq

/-- RendererFactory IsDirectX11Available: true exactly on Windows. -/
def isDirectX11Available (e : PlatformEnv) : Bool := e.isWindows

/-- RendererFactory IsDirectX12Available: Windows and the test-device probe
succeeds. -/
def isDirectX12Available (e : PlatformEnv) : Bool :=
  e.isWindows && e.dx12DeviceProbeOk

/-- RendererFactory IsVulkanAvailable: constantly false (not implemented). -/
def isVulkanAvailable (_ : PlatformEnv) : Bool := false

/-- RendererFactory IsOpenGLAvailable: true on Windows, Linux and macOS. -/
def isOpenGLAvailable (e : PlatformEnv) : Bool :=
  e.isWindows || e.isLinux || e.isMacOS

/-- RendererFactory IsMetalAvailable: true exactly on macOS. -/
def isMetalAvailable (e : PlatformEnv) : Bool := e.isMacOS

/-- RendererFactory GetBestAvailableAPI. Note the DirectX12 probe inside the
Windows branch is commented out in the source, so the Windows branch starts
at DirectX11; each platform branch falls through to the common OpenGL
fallback when nothing matched. -/
def getBestAvailableAPI (e : PlatformEnv) : RendererAPI :=
  if e.isWindows then
    if isDirectX11Available e then RendererAPI.directX11
    else if isVulkanAvailable e then RendererAPI.vulkan
    else if isOpenGLAvailable e then RendererAPI.openGL
    else RendererAPI.openGL
  else if e.isMacOS then
    if isMetalAvailable e then RendererAPI.metal
    else if isVulkanAvailable e then RendererAPI.vulkan
    else if isOpenGLAvailable e then RendererAPI.openGL
    else RendererAPI.openGL
  else if e.isLinux then
    if isVulkanAvailable e then RendererAPI.vulkan
    else if isOpenGLAvailable e then RendererAPI.openGL
    else RendererAPI.openGL
  else RendererAPI.openGL

/-- RendererFactory CreateDirectX11Renderer: null off Windows or when the
availability check fails or the constructor throws. -/
def createDirectX11Renderer (e : PlatformEnv) : Option RendererAPI :=
  if !e.isWindows then none
  else if !isDirectX11Available e then none
  else if e.dx11CtorOk then some RendererAPI.directX11 else none

/-- RendererFactory CreateDirectX12Renderer: null off Windows or when the
availability check fails or the constructor throws. -/
def createDirectX12Renderer (e : PlatformEnv) : Option RendererAPI :=
  if !e.isWindows then none
  else if !isDirectX12Available e then none
  else if e.dx12CtorOk then some RendererAPI.directX12 else none

/-- RendererFactory CreateVulkanRenderer: an unimplemented stub that always
returns null. -/
def createVulkanRenderer (_ : PlatformEnv) : Option RendererAPI := none

/-- RendererFactory CreateOpenGLRenderer: an unimplemented stub that always
returns null. -/
def createOpenGLRenderer (_ : PlatformEnv) : Option RendererAPI := none

/-- RendererFactory CreateMetalRenderer: an unimplemented stub that always
returns null. -/
def createMetalRenderer (_ : PlatformEnv) : Option RendererAPI := none

/-- RendererFactory CreateRenderer(api) for a concrete (non-Auto) API:
dispatch to the matching creation method. -/
def createRendererConcrete (api : RendererAPI) (e : PlatformEnv) : Option RendererAPI :=
  match api with
  | RendererAPI.directX12 => createDirectX12Renderer e
  | RendererAPI.directX11 => createDirectX11Renderer e
  | RendererAPI.vulkan => createVulkanRenderer e
  | RendererAPI.openGL => createOpenGLRenderer e
  | RendererAPI.metal => createMetalRenderer e
  | RendererAPI.auto => none

/-- RendererFactory CreateRenderer(api): the Auto case recurses once with
GetBestAvailableAPI, which never returns Auto, so the recursion is a single
extra dispatch; the other cases dispatch directly. -/
def createRendererForAPI (api : RendererAPI) (e : PlatformEnv) : Option RendererAPI :=
  match api with
  | RendererAPI.auto => createRendererConcrete (getBestAvailableAPI e) e
  | a => createRendererConcrete a e

/-- RendererFactory CreateRenderer() with no argument: CreateRenderer of
GetBestAvailableAPI. -/
def createRendererAuto (e : PlatformEnv) : Option RendererAPI :=
  createRendererForAPI (getBestAvailableAPI e) e

/-- RendererFactory IsAPISupported. -/
def isAPIAvailable (e : PlatformEnv) : RendererAPI → Bool
  | RendererAPI.directX12 => isDirectX12Available e
  | RendererAPI.directX11 => isDirectX11Available e
  | RendererAPI.vulkan => isVulkanAvailable e
  | RendererAPI.openGL => isOpenGLAvailable e
  | RendererAPI.metal => isMetalAvailable e
  | RendererAPI.auto => true

/-- Definition following the words of claim C4 (not the source), for
comparison with createRendererAuto: the platform candidate backends in
priority order with the most modern native API first, per the priority
comments in the source. -/
def specCandidateOrder (e : PlatformEnv) : List RendererAPI :=
  if e.isWindows then
    [RendererAPI.directX12, RendererAPI.directX11, RendererAPI.vulkan, RendererAPI.openGL]
  else if e.isMacOS then [RendererAPI.metal, RendererAPI.vulkan, RendererAPI.openGL]
  else if e.isLinux then [RendererAPI.vulkan, RendererAPI.openGL]
  else [RendererAPI.openGL]

/-- Definition following the words of claim C4 (not the source): return the
first candidate that both reports availability and constructs
successfully; none only when every candidate fails. -/
def specCreateRenderer (e : PlatformEnv) : Option RendererAPI :=
  (specCandidateOrder e).find?
    (fun a => isAPIAvailable e a && (createRendererConcrete a e).isSome)

/-! ## Theorems -/

/-! ### Helper lemmas shared by the DirectX12 invariant proofs -/

/-- Member Initialize never touches the back-buffer index. -/
theorem dx12Init_currBackBuffer (handleOk : Bool) (w h : Nat) (env : DX12InitEnv)
    (s : DX12State) : ((dx12Init handleOk w h env s).2).currBackBuffer = s.currBackBuffer := by
  unfold dx12Init dx12FlushCommandQueue
  dsimp only
  split_ifs <;> rfl

/-- Member Initialize never lowers the fence. -/
theorem dx12Init_fence (handleOk : Bool) (w h : Nat) (env : DX12InitEnv)
    (s : DX12State) : s.currentFence ≤ ((dx12Init handleOk w h env s).2).currentFence := by
  unfold dx12Init dx12FlushCommandQueue
  dsimp only
  split_ifs <;> (try dsimp only) <;> omega

/-- OnResize leaves the back-buffer index unchanged or resets it to 0. -/
theorem dx12OnResize_currBackBuffer (w h : Nat) (resizeOk depthStencilOk : Bool)
    (s : DX12State) :
    (dx12OnResize w h resizeOk depthStencilOk s).currBackBuffer = s.currBackBuffer ∨
    (dx12OnResize w h resizeOk depthStencilOk s).currBackBuffer = 0 := by
  unfold dx12OnResize dx12WaitForGPU dx12FlushCommandQueue
  dsimp only
  split_ifs <;> simp

/-- OnResize never lowers the fence. -/
theorem dx12OnResize_fence (w h : Nat) (resizeOk depthStencilOk : Bool)
    (s : DX12State) :
    s.currentFence ≤ (dx12OnResize w h resizeOk depthStencilOk s).currentFence := by
  unfold dx12OnResize dx12WaitForGPU dx12FlushCommandQueue
  dsimp only
  split_ifs <;> (try dsimp only) <;> omega

/-- Shutdown never touches the back-buffer index. -/
theorem dx12Shutdown_currBackBuffer (s : DX12State) :
    (dx12Shutdown s).currBackBuffer = s.currBackBuffer := by
  unfold dx12Shutdown dx12WaitForGPU
  dsimp only
  split_ifs <;> rfl

/-- Shutdown never lowers the fence. -/
theorem dx12Shutdown_fence (s : DX12State) :
    s.currentFence ≤ (dx12Shutdown s).currentFence := by
  unfold dx12Shutdown dx12WaitForGPU
  dsimp only
  split_ifs <;> (try dsimp only) <;> omega

/-- Present keeps the back-buffer index below the buffer count. -/
theorem dx12Present_currBackBuffer (presentOk : Bool) (s : DX12State)
    (hs : s.currBackBuffer < SWAP_CHAIN_BUFFER_COUNT) :
    (dx12Present presentOk s).currBackBuffer < SWAP_CHAIN_BUFFER_COUNT := by
  unfold dx12Present dx12FlushCommandQueue
  dsimp only
  split_ifs
  · exact hs
  · exact hs
  · exact Nat.mod_lt _ (by decide)

/-- Present never lowers the fence. -/
theorem dx12Present_fence (presentOk : Bool) (s : DX12State) :
    s.currentFence ≤ (dx12Present presentOk s).currentFence := by
  unfold dx12Present dx12FlushCommandQueue
  dsimp only
  split_ifs <;> (try dsimp only) <;> omega

/-- Every operation preserves the back-buffer bound. -/
theorem dx12Step_backBuffer {s t : DX12State}
    (hs : s.currBackBuffer < SWAP_CHAIN_BUFFER_COUNT) (hstep : DX12Step s t) :
    t.currBackBuffer < SWAP_CHAIN_BUFFER_COUNT := by
  cases hstep with
  | stepInit handleOk w h env s => rw [dx12Init_currBackBuffer]; exact hs
  | stepBeginFrame s =>
      unfold dx12BeginFrame
      split <;> exact hs
  | stepEndFrame s =>
      unfold dx12EndFrame
      split <;> exact hs
  | stepPresent presentOk s => exact dx12Present_currBackBuffer presentOk s hs
  | stepOnResize w h resizeOk depthStencilOk s =>
      rcases dx12OnResize_currBackBuffer w h resizeOk depthStencilOk s with he | he <;>
        rw [he]
      · exact hs
      · decide
  | stepWaitForGPU s =>
      unfold dx12WaitForGPU
      split <;> exact hs
  | stepShutdown s => rw [dx12Shutdown_currBackBuffer]; exact hs

/-! ### Claim theorems -/

/-- C1: evaluation of the code at the scenario of the claim. The key W
(virtual-key and Key ordinal 87) is up in both buffers; the raw press is
pumped inside window Update, which then runs the input Update once. The
claim states WasKeyPressed(W) is then true; the code yields false, because
the input Update copies the already-merged current state into previous,
erasing the press edge before it can ever be observed. After a second
Update with no events WasKeyPressed stays false and IsKeyDown stays true,
as the claim says. -/
theorem c1_wasKeyPressed_eval :
    wasKeyPressed ((windowUpdate [Win32Msg.keyDown 87] (0, 0)
      ((inputInit true (0, 0) initialInputState).2)).1) 87 = false ∧
    isKeyDown ((windowUpdate [Win32Msg.keyDown 87] (0, 0)
      ((inputInit true (0, 0) initialInputState).2)).1) 87 = true ∧
    wasKeyPressed ((windowUpdate [] (0, 0)
      ((windowUpdate [Win32Msg.keyDown 87] (0, 0)
        ((inputInit true (0, 0) initialInputState).2)).1)).1) 87 = false ∧
    isKeyDown ((windowUpdate [] (0, 0)
      ((windowUpdate [Win32Msg.keyDown 87] (0, 0)
        ((inputInit true (0, 0) initialInputState).2)).1)).1) 87 = true := by
  decide

/-- C2 counterexample: on both backends in the constructed, uninitialized
state, DrawIndexed with index count 3 mutates the statistics (drawCalls
goes from 0 to 1), refuting the claim that every frame operation including
the draw operations leaves stats unchanged before initialization. -/
theorem c2_counterexample :
    dx11InitialState.initialized = false ∧
    dx11InitialState.stats.drawCalls = 0 ∧
    (dx11DrawIndexed 3 0 0 dx11InitialState).stats.drawCalls = 1 ∧
    dx12InitialState.initialized = false ∧
    (dx12DrawIndexed 3 0 0 dx12InitialState).stats.drawCalls = 1 := by
  decide

/-- C2 amended: on an uninitialized backend BeginFrame, EndFrame and
Present (and the buffer and shader setters) are no-ops leaving the state,
hence the statistics, unchanged on both backends, but DrawIndexed updates
drawCalls, vertices and triangles regardless of initialization. -/
theorem c2_uninitialized_frame_ops (s : DX11State) (t : DX12State)
    (now n si : Nat) (bv : Int) (presentOk : Bool)
    (hs : s.initialized = false) (ht : t.initialized = false) :
    dx11BeginFrame now s = s ∧ dx11EndFrame now s = s ∧
    dx11Present presentOk s = s ∧
    dx12BeginFrame t = t ∧ dx12EndFrame t = t ∧ dx12Present presentOk t = t ∧
    dx11SetVertexBuffer s = s ∧ dx11SetIndexBuffer s = s ∧
    dx11SetPrimitiveTopology s = s ∧ dx11SetShader s = s ∧
    (dx11DrawIndexed n si bv s).stats.drawCalls = (s.stats.drawCalls + 1) % UINT32_MOD ∧
    (dx11DrawIndexed n si bv s).stats.vertices = (s.stats.vertices + n) % UINT32_MOD ∧
    (dx11DrawIndexed n si bv s).stats.triangles = (s.stats.triangles + n / 3) % UINT32_MOD ∧
    (dx12DrawIndexed n si bv t).stats.drawCalls = (t.stats.drawCalls + 1) % UINT32_MOD := by
  simp [dx11BeginFrame, dx11EndFrame, dx11Present, dx12BeginFrame, dx12EndFrame,
    dx12Present, dx11SetVertexBuffer, dx11SetIndexBuffer, dx11SetPrimitiveTopology,
    dx11SetShader, dx11DrawIndexed, dx12DrawIndexed, hs, ht]

/-- C2 witness: the amended statement applied at the constructed states of
both backends. -/
theorem c2_witness :
    dx11Present true dx11InitialState = dx11InitialState ∧
    (dx11DrawIndexed 6 0 0 dx11InitialState).stats.drawCalls =
      (dx11InitialState.stats.drawCalls + 1) % UINT32_MOD := by
  obtain ⟨h1, h2, h3, h4, h5, h6, h7, h8, h9, h10, h11, h12, h13, h14⟩ :=
    c2_uninitialized_frame_ops dx11InitialState dx12InitialState 5 6 0 0 true rfl rfl
  exact ⟨h3, h11⟩

/-- C3 counterexample: an initialized DirectX12 backend with drawCalls 5
keeps drawCalls 5 across BeginFrame (the claim requires 0), Present leaves
frameCount at 0 (the claim requires the increment to happen there), and
EndFrame is where frameCount becomes 1. -/
theorem c3_counterexample :
    ((⟨true, true, 0, 1, true, 800, 600, ⟨0, 0, 5, 9, 3⟩⟩ : DX12State).initialized = true) ∧
    (dx12BeginFrame ⟨true, true, 0, 1, true, 800, 600, ⟨0, 0, 5, 9, 3⟩⟩).stats.drawCalls = 5 ∧
    ((5 : Nat) ≠ 0) ∧
    (dx12Present true ⟨true, true, 0, 1, true, 800, 600, ⟨0, 0, 5, 9, 3⟩⟩).stats.frameCount = 0 ∧
    (dx12EndFrame ⟨true, true, 0, 1, true, 800, 600, ⟨0, 0, 5, 9, 3⟩⟩).stats.frameCount = 1 := by
  decide

/-- C3 amended: on an initialized DirectX11 backend BeginFrame zeroes the
three draw counters and records the frame start time, Present increments
frameCount by exactly one leaving the draw counters alone, and EndFrame
recomputes frameTime as the time elapsed since the BeginFrame timestamp;
the DirectX12 backend deviates: BeginFrame changes nothing (the draw
counters are never reset), frameCount is incremented at EndFrame rather
than at Present, Present leaves the statistics untouched, and frameTime is
never recomputed. -/
theorem c3_per_frame_stats (s : DX11State) (t : DX12State) (now : Nat)
    (presentOk : Bool) (hs : s.initialized = true) (ht : t.initialized = true) :
    (dx11BeginFrame now s).stats.drawCalls = 0 ∧
    (dx11BeginFrame now s).stats.vertices = 0 ∧
    (dx11BeginFrame now s).stats.triangles = 0 ∧
    (dx11BeginFrame now s).frameStartTime = now ∧
    (dx11BeginFrame now s).stats.frameCount = s.stats.frameCount ∧
    (dx11Present presentOk s).stats.frameCount = (s.stats.frameCount + 1) % UINT64_MOD ∧
    (dx11Present presentOk s).stats.drawCalls = s.stats.drawCalls ∧
    (dx11EndFrame now s).stats.frameTime = now - s.frameStartTime ∧
    dx12BeginFrame t = t ∧
    (dx12EndFrame t).stats.frameCount = (t.stats.frameCount + 1) % UINT64_MOD ∧
    (dx12Present presentOk t).stats = t.stats ∧
    (dx12EndFrame t).stats.frameTime = t.stats.frameTime := by
  cases presentOk <;>
    simp [dx11BeginFrame, dx11Present, dx11EndFrame, dx12BeginFrame, dx12EndFrame,
      dx12Present, dx12FlushCommandQueue, hs, ht]

/-- C3 witness: the amended statement applied at concrete initialized
states of both backends. -/
theorem c3_witness :
    (dx11BeginFrame 7 ⟨true, true, 800, 600, 0, ⟨2, 3, 4, 5, 6⟩⟩).stats.drawCalls = 0 ∧
    (dx12EndFrame ⟨true, true, 0, 1, true, 800, 600, ⟨2, 3, 4, 5, 6⟩⟩).stats.frameCount =
      ((⟨true, true, 0, 1, true, 800, 600, ⟨2, 3, 4, 5, 6⟩⟩ : DX12State).stats.frameCount + 1)
        % UINT64_MOD := by
  obtain ⟨h1, h2, h3, h4, h5, h6, h7, h8, h9, h10, h11, h12⟩ :=
    c3_per_frame_stats ⟨true, true, 800, 600, 0, ⟨2, 3, 4, 5, 6⟩⟩
      ⟨true, true, 0, 1, true, 800, 600, ⟨2, 3, 4, 5, 6⟩⟩ 7 true rfl rfl
  exact ⟨h1, h10⟩

/-- C4 counterexample: on Windows with DirectX12 fully available and both
constructors succeeding, the claim (formalized by specCreateRenderer,
which follows its words) picks DirectX12, the most modern native API; the
source CreateRenderer() returns DirectX11, because the DirectX12 probe in
GetBestAvailableAPI is commented out. Moreover with the DirectX11
constructor failing and DirectX12 still fine the source returns null even
though a candidate succeeds. -/
theorem c4_counterexample :
    createRendererAuto ⟨true, false, false, true, true, true⟩ = some RendererAPI.directX11 ∧
    specCreateRenderer ⟨true, false, false, true, true, true⟩ = some RendererAPI.directX12 ∧
    (some RendererAPI.directX11 ≠ some RendererAPI.directX12) ∧
    createRendererAuto ⟨true, false, false, true, false, true⟩ = none ∧
    specCreateRenderer ⟨true, false, false, true, false, true⟩ = some RendererAPI.directX12 := by
  decide

/-- C4 amended: CreateRenderer() selects a single API with
GetBestAvailableAPI — never DirectX12, since that probe is commented out;
on Windows always DirectX11, elsewhere the Metal or OpenGL stubs — and
constructs only that API with no fallback to other candidates: it returns
a renderer exactly when the platform is Windows and the DirectX11
constructor succeeds, and null otherwise, even when another candidate
would have been available and constructible. -/
theorem c4_factory_selection (e : PlatformEnv) :
    getBestAvailableAPI e ≠ RendererAPI.directX12 ∧
    createRendererAuto e =
      (if e.isWindows then
        (if e.dx11CtorOk then some RendererAPI.directX11 else none)
       else none) := by
  rcases e with ⟨w, l, m, p12, c11, c12⟩
  cases w <;> cases l <;> cases m <;> cases p12 <;> cases c11 <;> cases c12 <;>
    exact ⟨by decide, by decide⟩

/-- C5 counterexample: a key-up raw event for key A (ordinal 65) received
while the key is already up still invokes the key callback, refuting the
part of the claim that says a release event invokes the callback only if
the key was previously down. -/
theorem c5_counterexample :
    isKeyDown initialInputState 65 = false ∧
    (handleKeyUp 65 initialInputState).2 = [CallbackEvent.key 65 false] := by
  decide

/-- C5 amended: key and mouse-button press events invoke the registered
callback only on an edge (the key or button was previously up), but key and
mouse-button release events invoke it unconditionally (for every mapped key
and every button); mouse-move and wheel callbacks are invoked on every
event. -/
theorem c5_callback_edges (vk b : Nat) (x y raw : Int) (s : InputState) :
    ((handleKeyDown vk s).2 = [] ↔
      (virtualKeyToKey vk = 0 ∨ isKeyDown s (virtualKeyToKey vk) = true)) ∧
    ((handleKeyUp vk s).2 = [] ↔ virtualKeyToKey vk = 0) ∧
    ((handleMouseButtonDown b x y s).2 = [] ↔ isMouseButtonDown s b = true) ∧
    (handleMouseButtonUp b x y s).2 = [CallbackEvent.mouseButton b false x y] ∧
    (handleMouseMove x y s).2 = [CallbackEvent.mouseMove x y] ∧
    (handleMouseWheel raw s).2 = [CallbackEvent.scroll (Int.tdiv raw 120)] := by
  refine ⟨?_, ?_, ?_, rfl, rfl, rfl⟩
  · by_cases hk : virtualKeyToKey vk = 0
    · simp [handleKeyDown, hk]
    · cases hd : isKeyDown s (virtualKeyToKey vk) <;> simp [handleKeyDown, hk, hd]
  · by_cases hk : virtualKeyToKey vk = 0
    · simp [handleKeyUp, hk]
    · simp [handleKeyUp, hk]
  · cases hd : isMouseButtonDown s b <;> simp [handleMouseButtonDown, hd]

/-- C6 counterexample: with the cursor initially sampled at (0,0), a
mouse-move raw event to (5,5) pumped before the first Update, and the
cursor sampled at (10,10) at that Update, GetMouseDelta yields 5: neither
the (0,0) the claim requires on the very first Update, nor the difference
10 between the cursor sample and the position observed at the preceding
Update-point, so intervening mouse events do change the delta. -/
theorem c6_counterexample :
    ((windowUpdate [Win32Msg.mouseMove 5 5] (10, 10)
      ((inputInit true (0, 0) initialInputState).2)).1.mouseDeltaX = 5) ∧
    ((5 : Int) ≠ 0) ∧ ((5 : Int) ≠ 10) := by
  decide

/-- C6 amended: after Update the mouse delta equals the cursor sample of
this Update minus the position recorded just before it, where the recorded
position is written both by Update and by every intervening mouse event; in
particular over two consecutive Updates with no intervening events the
delta is the difference of the two cursor samples, and the delta on the
first Update after a successful member Initialize is (0,0) provided no
event intervened and the cursor sample is unchanged. -/
theorem c6_mouse_delta (s : InputState) (c c1 c2 : Int × Int) :
    (inputUpdate c s).mouseDeltaX = c.1 - s.mouseX ∧
    (inputUpdate c s).mouseDeltaY = c.2 - s.mouseY ∧
    (inputUpdate c2 (inputUpdate c1 s)).mouseDeltaX = c2.1 - c1.1 ∧
    (inputUpdate c2 (inputUpdate c1 s)).mouseDeltaY = c2.2 - c1.2 ∧
    (inputUpdate c ((inputInit true c s).2)).mouseDeltaX = 0 ∧
    (inputUpdate c ((inputInit true c s).2)).mouseDeltaY = 0 := by
  refine ⟨rfl, rfl, rfl, rfl, ?_, ?_⟩ <;> simp [inputUpdate, inputInit]

/-- C7 counterexample: a DirectX12 backend left partially initialized by a
swap-chain failure holds a fence event handle, and Shutdown on it is a
strict no-op: the handle is not released, refuting the resource-release
part of the claim for partially-initialized backends. -/
theorem c7_counterexample :
    ((dx12Init true 800 600 ⟨true, true, true, false, true, true, true⟩
      dx12InitialState).1 = false) ∧
    ((dx12Init true 800 600 ⟨true, true, true, false, true, true, true⟩
      dx12InitialState).2.initialized = false) ∧
    ((dx12Init true 800 600 ⟨true, true, true, false, true, true, true⟩
      dx12InitialState).2.fenceEvent = true) ∧
    (dx12Shutdown (dx12Init true 800 600 ⟨true, true, true, false, true, true, true⟩
      dx12InitialState).2 =
     (dx12Init true 800 600 ⟨true, true, true, false, true, true, true⟩
      dx12InitialState).2) := by
  decide

/-- C7 amended: Shutdown is idempotent on both backends (a second call
leaves the state of the first call unchanged) and returns without fault
from every state; on an initialized DirectX12 backend it does release the
fence event handle and clears the initialized flag, but on a
never-initialized or partially-initialized backend it returns immediately
without releasing anything, the fence event handle included. -/
theorem c7_shutdown_idempotent (s : DX11State) (t : DX12State) :
    dx11Shutdown (dx11Shutdown s) = dx11Shutdown s ∧
    dx12Shutdown (dx12Shutdown t) = dx12Shutdown t ∧
    (t.initialized = true →
      (dx12Shutdown t).fenceEvent = false ∧ (dx12Shutdown t).initialized = false) ∧
    (t.initialized = false → dx12Shutdown t = t) := by
  refine ⟨?_, ?_, ?_, ?_⟩
  · cases h : s.initialized <;> simp [dx11Shutdown, h]
  · cases h : t.initialized <;> cases hf : t.fenceEvent <;>
      simp [dx12Shutdown, dx12WaitForGPU, h, hf]
  · intro h
    cases hf : t.fenceEvent <;> simp [dx12Shutdown, dx12WaitForGPU, h, hf]
  · intro h
    simp [dx12Shutdown, h]

/-- C7 witness: the amended statement applied at the constructed DirectX11
state, a concrete initialized DirectX12 state, and the constructed
DirectX12 state. -/
theorem c7_witness :
    dx11Shutdown (dx11Shutdown dx11InitialState) = dx11Shutdown dx11InitialState ∧
    (dx12Shutdown (⟨true, true, 0, 1, true, 800, 600, initialStats⟩ : DX12State)).fenceEvent
      = false ∧
    (dx12Shutdown (⟨true, true, 0, 1, true, 800, 600, initialStats⟩ : DX12State)).initialized
      = false ∧
    dx12Shutdown dx12InitialState = dx12InitialState := by
  have h := c7_shutdown_idempotent dx11InitialState
    (⟨true, true, 0, 1, true, 800, 600, initialStats⟩ : DX12State)
  have h2 := c7_shutdown_idempotent dx11InitialState dx12InitialState
  exact ⟨h.1, (h.2.2.1 rfl).1, (h.2.2.1 rfl).2, h2.2.2.2 rfl⟩

/-- C8: in every state of the DirectX12 backend reachable from construction
by any sequence of the operations, the back-buffer index stays below
SWAP_CHAIN_BUFFER_COUNT, and no operation ever lowers the fence value. -/
theorem c8_backbuffer_fence :
    (∀ s : DX12State, DX12Reachable s → s.currBackBuffer < SWAP_CHAIN_BUFFER_COUNT) ∧
    (∀ s t : DX12State, DX12Step s t → s.currentFence ≤ t.currentFence) := by
  constructor
  · intro s hs
    induction hs with
    | start => decide
    | step hr hstep ih => exact dx12Step_backBuffer ih hstep
  · intro s t hstep
    cases hstep with
    | stepInit handleOk w h env s => exact dx12Init_fence handleOk w h env s
    | stepBeginFrame s =>
        unfold dx12BeginFrame
        split <;> exact Nat.le_refl _
    | stepEndFrame s =>
        unfold dx12EndFrame
        split <;> exact Nat.le_refl _
    | stepPresent presentOk s => exact dx12Present_fence presentOk s
    | stepOnResize w h resizeOk depthStencilOk s =>
        exact dx12OnResize_fence w h resizeOk depthStencilOk s
    | stepWaitForGPU s =>
        unfold dx12WaitForGPU
        split
        · exact Nat.le_refl _
        · exact Nat.le_succ _
    | stepShutdown s => exact dx12Shutdown_fence s

/-- C8 witness: the invariant at the constructed state and the fence
monotonicity across one concrete WaitForGPU step. -/
theorem c8_witness :
    dx12InitialState.currBackBuffer < SWAP_CHAIN_BUFFER_COUNT ∧
    dx12InitialState.currentFence ≤ (dx12WaitForGPU dx12InitialState).currentFence :=
  ⟨c8_backbuffer_fence.1 dx12InitialState DX12Reachable.start,
   c8_backbuffer_fence.2 dx12InitialState (dx12WaitForGPU dx12InitialState)
     (DX12Step.stepWaitForGPU dx12InitialState)⟩

/-- C9: every key query returns false for ordinals at or beyond MAX_KEYS
(512), UpdateKeyState leaves the state untouched there, and every
enumerator of the Key enumeration has ordinal below 512, so no key-state
operation indexes outside the arrays. -/
theorem c9_out_of_range_keys (s : InputState) (i : Nat) (p : Bool)
    (h : MAX_KEYS ≤ i) :
    isKeyDown s i = false ∧ wasKeyPressed s i = false ∧
    wasKeyReleased s i = false ∧ updateKeyState i p s = s ∧
    ∀ k ∈ keyEnumOrdinals, k < MAX_KEYS := by
  have hlt : ¬ i < MAX_KEYS := Nat.not_lt.mpr h
  have h0 : i ≠ 0 := by
    intro h0
    rw [h0] at h
    exact absurd h (by decide)
  refine ⟨?_, ?_, ?_, ?_, by decide⟩
  · simp [isKeyDown, hlt]
  · simp [wasKeyPressed, h]
  · simp [wasKeyReleased, h]
  · simp [updateKeyState, h0, hlt]

/-- C9 witness at the concrete out-of-range ordinal 600. -/
theorem c9_witness :
    MAX_KEYS ≤ 600 ∧
    (isKeyDown initialInputState 600 = false ∧
     wasKeyPressed initialInputState 600 = false ∧
     wasKeyReleased initialInputState 600 = false ∧
     updateKeyState 600 true initialInputState = initialInputState ∧
     ∀ k ∈ keyEnumOrdinals, k < MAX_KEYS) :=
  ⟨by decide, c9_out_of_range_keys initialInputState 600 true (by decide)⟩

/-- C10: calling the member Initialize on an already-initialized backend
changes no state, and the two backends disagree on the returned value:
DirectX11 returns true while DirectX12 returns false. -/
theorem c10_reinit (s : DX11State) (t : DX12State) (handleOk : Bool) (w h : Nat)
    (e1 : DX11InitEnv) (e2 : DX12InitEnv)
    (hs : s.initialized = true) (ht : t.initialized = true) :
    dx11Init handleOk w h e1 s = (true, s) ∧
    dx12Init handleOk w h e2 t = (false, t) := by
  constructor
  · simp [dx11Init, hs]
  · simp [dx12Init, ht]

/-- C10 witness: the statement applied at concrete initialized states. -/
theorem c10_witness :
    dx11Init true 640 480 ⟨true, true, true, true⟩
      (⟨true, true, 800, 600, 0, initialStats⟩ : DX11State) =
      (true, (⟨true, true, 800, 600, 0, initialStats⟩ : DX11State)) ∧
    dx12Init true 640 480 ⟨true, true, true, true, true, true, true⟩
      (⟨true, true, 0, 1, true, 800, 600, initialStats⟩ : DX12State) =
      (false, (⟨true, true, 0, 1, true, 800, 600, initialStats⟩ : DX12State)) :=
  c10_reinit (⟨true, true, 800, 600, 0, initialStats⟩ : DX11State)
    (⟨true, true, 0, 1, true, 800, 600, initialStats⟩ : DX12State)
    true 640 480 ⟨true, true, true, true⟩ ⟨true, true, true, true, true, true, true⟩
    rfl rfl

end HermitSystem
